import Mathlib

/-!
VulkanApp.h: record layouts, handle initialisers and per-frame uniform state

A shallow embedding of `src/VulkanFramework/VulkanApp.h`.

* The shader-visible records `Sphere`, `Plane`, `Triangle` and `UBOCompute` are
  embedded as their member lists, in declaration order, and laid out by the
  usual sequential rule (each member at the next offset that is a multiple of
  its alignment, the record padded to its own alignment).
* The resource handle members of `VulkanApp` are embedded as a table of
  declarations with their in-class initialisers.
* The default member initialisers of `UBOCompute` and `m_AccuTime` are embedded
  as values over an arbitrary field. Sums and products are exact; the one
  division of the header, `800.f/600.f`, is the division `fdiv` of the scalar
  type, which for `float` is `f32div`, the correctly rounded binary32 quotient.
  The member function bodies, which the header does not contain, are modelled
  from the specification.
-/

namespace VulkanApp

/-! ## Member types and sequential layout -/

/-- Types of the members of the shader-visible records in `VulkanApp.h`. -/
inductive CType
  | float
  | int
  | uint32_t
  | vec3
  | ivec3
  | vec4
  deriving DecidableEq, Repr

/-- Size in bytes: 4-byte scalars, glm vectors are packed arrays of them. -/
def CType.size : CType → Nat
  | .float => 4
  | .int => 4
  | .uint32_t => 4
  | .vec3 => 12
  | .ivec3 => 12
  | .vec4 => 16

/-- Host alignment: every member type is made of 4-byte scalars, so each one
is 4-byte aligned (glm without forced aligned types). -/
def CType.align : CType → Nat
  | .float => 4
  | .int => 4
  | .uint32_t => 4
  | .vec3 => 4
  | .ivec3 => 4
  | .vec4 => 4

/-- Base alignment under std140: scalars 4 bytes, three- and four-component
vectors 16 bytes. -/
def CType.std140Align : CType → Nat
  | .float => 4
  | .int => 4
  | .uint32_t => 4
  | .vec3 => 16
  | .ivec3 => 16
  | .vec4 => 16

/-- One declared data member of a record. -/
structure Member where
  name : String
  ty : CType
  deriving DecidableEq, Repr

/-- Smallest multiple of `a` that is at least `off`. -/
def alignUp (off a : Nat) : Nat := (off + a - 1) / a * a

/-- Offsets of the members of a record laid out one after the other from byte
`off`, each at the next multiple of its alignment `al`. -/
def offsetsFrom (al : CType → Nat) : Nat → List Member → List Nat
  | _, [] => []
  | off, m :: ms =>
    alignUp off (al m.ty) :: offsetsFrom al (alignUp off (al m.ty) + m.ty.size) ms

/-- First byte after the last member. -/
def endFrom (al : CType → Nat) : Nat → List Member → Nat
  | off, [] => off
  | off, m :: ms => endFrom al (alignUp off (al m.ty) + m.ty.size) ms

/-- Alignment of a record: the largest alignment among its members. -/
def recordAlign (al : CType → Nat) (ms : List Member) : Nat :=
  ms.foldl (fun a m => max a (al m.ty)) 1

/-- Host offsets of the members of a record (C++ layout). -/
def offsets (ms : List Member) : List Nat := offsetsFrom CType.align 0 ms

/-- Host `sizeof` of a record (C++ layout). -/
def sizeOf (ms : List Member) : Nat :=
  alignUp (endFrom CType.align 0 ms) (recordAlign CType.align ms)

/-- Offsets the std140 rules give the same members. -/
def std140Offsets (ms : List Member) : List Nat := offsetsFrom CType.std140Align 0 ms

/-- Sum of the member sizes: the size of the record if nothing is inserted. -/
def packedSize (ms : List Member) : Nat := (ms.map (fun m => m.ty.size)).sum

/-- Offsets of the members if nothing is inserted between them. -/
def packedOffsetsFrom : Nat → List Member → List Nat
  | _, [] => []
  | off, m :: ms => off :: packedOffsetsFrom (off + m.ty.size) ms

/-- Host offsets of the members of a given type. -/
def offsetsOfType (t : CType) (ms : List Member) : List Nat :=
  ((ms.zip (offsets ms)).filter (fun p => decide (p.1.ty = t))).map (fun p => p.2)

/-- Host offset of the member called `n`, if there is one. -/
def offsetOf (n : String) (ms : List Member) : Option Nat :=
  ((ms.zip (offsets ms)).find? (fun p => p.1.name == n)).map (fun p => p.2)

/-- Offset the std140 rules give the member called `n`, if there is one. -/
def std140OffsetOf (n : String) (ms : List Member) : Option Nat :=
  ((ms.zip (std140Offsets ms)).find? (fun p => p.1.name == n)).map (fun p => p.2)

/-! ## The records of `VulkanApp.h` -/

/-- Members of `struct Sphere`, in declaration order. -/
def Sphere.decl : List Member :=
  [⟨"pos", .vec3⟩, ⟨"radius", .float⟩, ⟨"diffuse", .vec3⟩, ⟨"specular", .float⟩,
   ⟨"id", .uint32_t⟩, ⟨"_pad", .ivec3⟩]

/-- Members of `struct Plane`, in declaration order. -/
def Plane.decl : List Member :=
  [⟨"normal", .vec3⟩, ⟨"distance", .float⟩, ⟨"diffuse", .vec3⟩, ⟨"specular", .float⟩,
   ⟨"id", .uint32_t⟩, ⟨"_pad", .ivec3⟩]

/-- Members of `struct Triangle`, in declaration order. -/
def Triangle.decl : List Member :=
  [⟨"p1", .vec3⟩, ⟨"id", .int⟩, ⟨"p2", .vec3⟩, ⟨"specular", .float⟩,
   ⟨"p3", .vec3⟩, ⟨"pad1", .int⟩, ⟨"normal", .vec3⟩, ⟨"pad2", .int⟩,
   ⟨"diffuse", .vec3⟩, ⟨"pad3", .int⟩]

/-- Members of `struct UBOCompute`, in declaration order. -/
def UBOCompute.decl : List Member :=
  [⟨"lightPos", .vec3⟩, ⟨"aspectRatio", .float⟩, ⟨"fogColor", .vec4⟩,
   ⟨"pos", .vec3⟩, ⟨"lookat", .vec3⟩, ⟨"fov", .float⟩]

/-! ## Resource handle members of `VulkanApp` -/

/-- Declared type of a resource handle member. -/
inductive HandleType
  | BufferPtr
  | TexturePtr
  | VkPipeline
  | VkPipelineLayout
  | VkDescriptorSetLayout
  | VkDescriptorSet
  | VkDescriptorPool
  | VkQueue
  | VkCommandPool
  | VkCommandBuffer
  | VkFence
  deriving DecidableEq, Repr

/-- In-class default member initialisers that occur on handle members. -/
inductive NullInit
  | nullptr
  | VK_NULL_HANDLE
  deriving DecidableEq, Repr

/-- One handle member declaration: name, type, and its in-class initialiser
(`none` when the declaration has no initialiser). -/
structure HandleMember where
  name : String
  ty : HandleType
  initialiser : Option NullInit
  deriving DecidableEq, Repr

/-- The null initialiser that belongs to a handle type: `nullptr` for the
`vkw::Buffer*` / `vkw::Texture*` members, `VK_NULL_HANDLE` for `Vk*` members. -/
def HandleType.nullInit : HandleType → NullInit
  | .BufferPtr => .nullptr
  | .TexturePtr => .nullptr
  | _ => .VK_NULL_HANDLE

/-- The resource handle members of `VulkanApp`, in declaration order
(lines 38-44 and 90-104 of `VulkanApp.h`). -/
def handleMembers : List HandleMember :=
  [⟨"m_pSphereGeomBuffer", .BufferPtr, some .nullptr⟩,
   ⟨"m_pPlaneGeomBuffer", .BufferPtr, some .nullptr⟩,
   ⟨"m_pTriangleGeomBuffer", .BufferPtr, some .nullptr⟩,
   ⟨"m_pUniformBuffer", .BufferPtr, some .nullptr⟩,
   ⟨"m_pTexture", .TexturePtr, some .nullptr⟩,
   ⟨"m_GraphicsPipeline", .VkPipeline, some .VK_NULL_HANDLE⟩,
   ⟨"m_GraphicsPipelineLayout", .VkPipelineLayout, some .VK_NULL_HANDLE⟩,
   ⟨"m_GraphicsDescriptorSetLayout", .VkDescriptorSetLayout, some .VK_NULL_HANDLE⟩,
   ⟨"m_GraphicsDescriptorSet", .VkDescriptorSet, some .VK_NULL_HANDLE⟩,
   ⟨"m_DescriptorPool", .VkDescriptorPool, some .VK_NULL_HANDLE⟩,
   ⟨"m_ComputeQueue", .VkQueue, some .VK_NULL_HANDLE⟩,
   ⟨"m_ComputePipeline", .VkPipeline, some .VK_NULL_HANDLE⟩,
   ⟨"m_ComputePipelineLayout", .VkPipelineLayout, none⟩,
   ⟨"m_ComputeCommandPool", .VkCommandPool, some .VK_NULL_HANDLE⟩,
   ⟨"m_ComputeCommandBuffer", .VkCommandBuffer, some .VK_NULL_HANDLE⟩,
   ⟨"m_ComputeFence", .VkFence, some .VK_NULL_HANDLE⟩,
   ⟨"m_ComputeDescriptorSet", .VkDescriptorSet, some .VK_NULL_HANDLE⟩,
   ⟨"m_ComputeDescriptorSetLayout", .VkDescriptorSetLayout, some .VK_NULL_HANDLE⟩]

/-- Value a handle member holds once the default member initialisers have run:
`some 0` (null) when it has a null initialiser, `none` (indeterminate) when
the declaration has no initialiser. -/
def HandleMember.valueBeforeInit (m : HandleMember) : Option Nat :=
  m.initialiser.map (fun _ => 0)

/-- A handle member is declared with the null initialiser of its type. -/
def HandleMember.hasNullInit (m : HandleMember) : Bool :=
  decide (m.initialiser = some m.ty.nullInit)

/-! ## Uniform block values and per-frame state -/

/-- Three components, as `glm::vec3`. -/
structure Vec3 (K : Type) where
  x : K
  y : K
  z : K
  deriving DecidableEq, Repr

/-- Four components, as `glm::vec4`. -/
structure Vec4 (K : Type) where
  x : K
  y : K
  z : K
  w : K
  deriving DecidableEq, Repr

/-- Values of `struct UBOCompute`. -/
structure UBOCompute (K : Type) where
  lightPos : Vec3 K
  aspectRatio : K
  fogColor : Vec4 K
  pos : Vec3 K
  lookat : Vec3 K
  fov : K
  deriving DecidableEq, Repr

/-- Nearest integer to `q`, the even one when `q` lies halfway between two. -/
def roundEven (q : ℚ) : ℤ :=
  if q - ⌊q⌋ < 1 / 2 then ⌊q⌋
  else if 1 / 2 < q - ⌊q⌋ then ⌊q⌋ + 1
  else if ⌊q⌋ % 2 = 0 then ⌊q⌋ else ⌊q⌋ + 1

/-- The `float` nearest to the rational `q`: binary floating point with 24
significant bits, round to nearest, ties to even. The exponent is not bounded
here, so this is the binary32 result exactly when `q` is zero or its magnitude
lies in the normal range, from `2 ^ (-126)` up to the largest finite value. -/
def f32round (q : ℚ) : ℚ :=
  (roundEven (q / 2 ^ (Int.log 2 |q| - 23)) : ℚ) * 2 ^ (Int.log 2 |q| - 23)

/-- Division of two `float` values with a non-zero divisor: the exact quotient,
correctly rounded. -/
def f32div (a b : ℚ) : ℚ := f32round (a / b)

/-- The default member initialisers of `UBOCompute`, with `fdiv` the division
of the scalar type (`aspectRatio = 800.f/600.f`). `lightPos` has none, so its
value after construction is whatever `lp` the storage holds. -/
def UBOCompute.init {K : Type} [Field K] (fdiv : K → K → K) (lp : Vec3 K) : UBOCompute K :=
  ⟨lp, fdiv 800 600, ⟨0, 0, 0, 0⟩, ⟨0, 0, 4⟩, ⟨0, 1 / 2, 0⟩, 10⟩

/-- The data members of `VulkanApp` that the per-frame update reads and
writes: the uniform block and the accumulated time. -/
structure App (K : Type) where
  m_UniformBufferData : UBOCompute K
  m_AccuTime : K
  deriving DecidableEq, Repr

/-- State after the default member initialisers: `m_UniformBufferData` as
initialised by `UBOCompute`, `m_AccuTime{}` zero. -/
def App.constructed {K : Type} [Field K] (fdiv : K → K → K) (lp : Vec3 K) : App K :=
  ⟨UBOCompute.init fdiv lp, 0⟩

/-- Rotation about the vertical (y) axis through the origin, given the cosine
`c` and sine `s` of the angle. -/
def rotateY {K : Type} [Field K] (c s : K) (v : Vec3 K) : Vec3 K :=
  ⟨c * v.x + s * v.z, v.y, c * v.z - s * v.x⟩

/-- What the light motion depends on: the cosine and sine functions, the
constant angular speed `omega` and the initial light position `light0`. -/
structure LightMotion (K : Type) where
  cos : K → K
  sin : K → K
  omega : K
  light0 : Vec3 K

/-- Modelled from the spec: the body of `VulkanApp::UpdateUniformBuffers` is
missing (the header only declares it). Section 4.2: the new light position is
the initial position rotated around the scene centre by the angle
`accumulatedTime * omega`, on a horizontal circle at fixed height; the rest of
the uniform block is copied as it is. -/
def UpdateUniformBuffers {K : Type} [Field K] (lm : LightMotion K) (s : App K) : App K :=
  { s with
    m_UniformBufferData :=
      { s.m_UniformBufferData with
        lightPos :=
          rotateY (lm.cos (s.m_AccuTime * lm.omega)) (lm.sin (s.m_AccuTime * lm.omega))
            lm.light0 } }

/-- Modelled from the spec: the body of `VulkanApp::Update` is missing (the
header only declares it). Section 4.7 step 1: update the accumulated time by
the elapsed seconds `dTime`, then rewrite the uniform block. -/
def Update {K : Type} [Field K] (lm : LightMotion K) (dTime : K) (s : App K) : App K :=
  UpdateUniformBuffers lm { s with m_AccuTime := s.m_AccuTime + dTime }

/-- Modelled from the spec: the body of `VulkanApp::Init` is missing (the
header only declares it). Section 3: the uniform block's `aspectRatio` equals
viewport width / height, computed in the scalar type by its division `fdiv`
(`width`, `height` and `aspectRatio` are all `float`). Nothing else of the
state modelled here is said to change at Init. -/
def Init {K : Type} [Field K] (fdiv : K → K → K) (width height : K) (s : App K) : App K :=
  { s with
    m_UniformBufferData := { s.m_UniformBufferData with aspectRatio := fdiv width height } }

/-- The state after `Init(width, height)` on a freshly constructed application
followed by one `Update` call per element of `dts`, in order. -/
def runFrames {K : Type} [Field K] (fdiv : K → K → K) (lm : LightMotion K) (lp : Vec3 K)
    (width height : K) (dts : List K) : App K :=
  dts.foldl (fun s dt => Update lm dt s) (Init fdiv width height (App.constructed fdiv lp))

/-! ## Compute dispatch -/

/-- Threads per workgroup along x and along y, as the shader declares them. -/
def workgroupSize : Nat := 16

/-- Modelled from the spec: the body of `VulkanApp::BuildComputeCommandBuffers`
is missing (the header only declares it). Section 4.4: the dispatch has
workgroup count ceil(width/16) x ceil(height/16) x 1. The result is the triple
of workgroup counts recorded for an image of the given extent. -/
def BuildComputeCommandBuffers (width height : Nat) : Nat × Nat × Nat :=
  (⌈(width : ℚ) / 16⌉₊, ⌈(height : ℚ) / 16⌉₊, 1)

/-- Pixel computed by the thread with local index `(lx, ly)` in workgroup
`(gx, gy)`: its global invocation index. -/
def threadPixel (gx gy lx ly : Nat) : Nat × Nat :=
  (workgroupSize * gx + lx, workgroupSize * gy + ly)

/-! ## A concrete light motion over the rationals -/

/-- A cosine over the rationals: the rational parametrisation of the circle. -/
def ratCos (a : ℚ) : ℚ := (1 - a * a) / (1 + a * a)

/-- The sine that goes with `ratCos`. -/
def ratSin (a : ℚ) : ℚ := 2 * a / (1 + a * a)

/-- A concrete light motion over the rationals. -/
def demoMotion : LightMotion ℚ := ⟨ratCos, ratSin, 1, ⟨3, 10, 4⟩⟩

/-! ## Layout of the scene records -/

/-- C2: in `Sphere`, `Plane` and `Triangle`, laid out in declaration order on
the host, every `glm::vec3` member starts at a byte offset that is a multiple
of 16: offsets 0 and 16 in `Sphere` and `Plane`; 0, 16, 32, 48, 64 for `p1`,
`p2`, `p3`, `normal`, `diffuse` in `Triangle`. -/
theorem vec3_members_on_16_byte_boundaries :
    offsetsOfType .vec3 Sphere.decl = [0, 16] ∧
    offsetsOfType .vec3 Plane.decl = [0, 16] ∧
    offsetsOfType .vec3 Triangle.decl = [0, 16, 32, 48, 64] ∧
    ["p1", "p2", "p3", "normal", "diffuse"].map (fun n => offsetOf n Triangle.decl)
      = [some 0, some 16, some 32, some 48, some 64] ∧
    (∀ o ∈ offsetsOfType .vec3 Sphere.decl ++ offsetsOfType .vec3 Plane.decl
        ++ offsetsOfType .vec3 Triangle.decl, o % 16 = 0) := by
  decide

/-- C3: `Triangle` occupies exactly 80 bytes. Its ten members are `p1`, `id`,
`p2`, `specular`, `p3`, `pad1`, `normal`, `pad2`, `diffuse`, `pad3`, in that
order, five times a 12-byte `vec3` followed by a 4-byte scalar; the host layout
puts each member right after the previous one (no inserted padding between the
members or at the end). -/
theorem Triangle_occupies_80_bytes :
    Triangle.decl.map (fun m => m.name)
      = ["p1", "id", "p2", "specular", "p3", "pad1", "normal", "pad2", "diffuse", "pad3"] ∧
    Triangle.decl.map (fun m => m.ty)
      = [.vec3, .int, .vec3, .float, .vec3, .int, .vec3, .int, .vec3, .int] ∧
    Triangle.decl.map (fun m => m.ty.size) = [12, 4, 12, 4, 12, 4, 12, 4, 12, 4] ∧
    offsets Triangle.decl = [0, 12, 16, 28, 32, 44, 48, 60, 64, 76] ∧
    offsets Triangle.decl = packedOffsetsFrom 0 Triangle.decl ∧
    sizeOf Triangle.decl = packedSize Triangle.decl ∧
    sizeOf Triangle.decl = 80 := by
  decide

/-- C4: `Sphere` occupies exactly 48 bytes. Its members `pos`, `radius`,
`diffuse`, `specular`, `id`, `_pad` lie in that order at offsets 0, 12, 16, 28,
32, 36, each right after the previous one; the size is a multiple of 16, and in
element `i` of an array of `Sphere` that starts on a 16-byte boundary every
`vec3` member is again on a 16-byte boundary. -/
theorem Sphere_occupies_48_bytes :
    Sphere.decl.map (fun m => m.name)
      = ["pos", "radius", "diffuse", "specular", "id", "_pad"] ∧
    Sphere.decl.map (fun m => m.ty) = [.vec3, .float, .vec3, .float, .uint32_t, .ivec3] ∧
    offsets Sphere.decl = [0, 12, 16, 28, 32, 36] ∧
    offsets Sphere.decl = packedOffsetsFrom 0 Sphere.decl ∧
    sizeOf Sphere.decl = packedSize Sphere.decl ∧
    sizeOf Sphere.decl = 48 ∧
    sizeOf Sphere.decl % 16 = 0 ∧
    (∀ i o : Nat, o ∈ offsetsOfType .vec3 Sphere.decl →
      (i * sizeOf Sphere.decl + o) % 16 = 0) := by
  refine ⟨by decide, by decide, by decide, by decide, by decide, by decide, by decide, ?_⟩
  intro i o ho
  have hs : sizeOf Sphere.decl = 48 := by decide
  have hl : offsetsOfType .vec3 Sphere.decl = [0, 16] := by decide
  rw [hl] at ho
  rw [hs]
  simp only [List.mem_cons, List.mem_singleton, List.not_mem_nil, or_false] at ho
  omega

/-- C5: `Plane` occupies exactly 48 bytes. Its members `normal`, `distance`,
`diffuse`, `specular`, `id`, `_pad` lie in that order at offsets 0, 12, 16, 28,
32, 36, each right after the previous one; member for member `Plane` has the
types, offsets and size of `Sphere`. -/
theorem Plane_occupies_48_bytes :
    Plane.decl.map (fun m => m.name)
      = ["normal", "distance", "diffuse", "specular", "id", "_pad"] ∧
    Plane.decl.map (fun m => m.ty) = [.vec3, .float, .vec3, .float, .uint32_t, .ivec3] ∧
    offsets Plane.decl = [0, 12, 16, 28, 32, 36] ∧
    offsets Plane.decl = packedOffsetsFrom 0 Plane.decl ∧
    sizeOf Plane.decl = packedSize Plane.decl ∧
    sizeOf Plane.decl = 48 ∧
    Plane.decl.map (fun m => m.ty) = Sphere.decl.map (fun m => m.ty) ∧
    offsets Plane.decl = offsets Sphere.decl ∧
    sizeOf Plane.decl = sizeOf Sphere.decl := by
  decide

/-! ## Layout of the uniform block against std140 -/

/-- C1 (the header departs from it): laid out on the host, `UBOCompute` has
its members at 0, 12, 16, 32, 44, 56, while the std140 rules put them at 0, 12,
16, 32, 48, 60. The two agree on `lightPos`, `aspectRatio`, `fogColor` and
`pos` and differ on `lookat` (44 on the host, 48 under std140) and on `fov`
(56 against 60); the `vec3` member `lookat` starts at 44, which is not a
multiple of 16. -/
theorem UBOCompute_lookat_off_std140 :
    offsets UBOCompute.decl = [0, 12, 16, 32, 44, 56] ∧
    std140Offsets UBOCompute.decl = [0, 12, 16, 32, 48, 60] ∧
    offsets UBOCompute.decl ≠ std140Offsets UBOCompute.decl ∧
    offsetOf "lookat" UBOCompute.decl = some 44 ∧
    std140OffsetOf "lookat" UBOCompute.decl = some 48 ∧
    offsetOf "fov" UBOCompute.decl = some 56 ∧
    std140OffsetOf "fov" UBOCompute.decl = some 60 ∧
    offsetsOfType .vec3 UBOCompute.decl = [0, 32, 44] ∧
    44 % 16 = 12 ∧
    (UBOCompute.decl.take 4).map (fun m => offsetOf m.name UBOCompute.decl)
      = (UBOCompute.decl.take 4).map (fun m => std140OffsetOf m.name UBOCompute.decl) := by
  decide

/-! ## Handle member initialisers -/

/-- C10 (the header departs from it): exactly one resource handle member of
`VulkanApp` lacks the null initialiser of its type, `m_ComputePipelineLayout`,
which is declared without any initialiser, so that its value before `Init` is
indeterminate. The other seventeen members, its sibling
`m_GraphicsPipelineLayout` among them, are initialised to null. -/
theorem m_ComputePipelineLayout_not_initialised :
    handleMembers.filter (fun m => !m.hasNullInit)
      = [⟨"m_ComputePipelineLayout", .VkPipelineLayout, none⟩] ∧
    (handleMembers.filter (fun m => !m.hasNullInit)).map HandleMember.valueBeforeInit
      = [none] ∧
    (handleMembers.filter (fun m => m.hasNullInit)).length = 17 ∧
    ((handleMembers.filter (fun m => m.hasNullInit)).map HandleMember.valueBeforeInit).all
      (fun v => v == some 0) = true ∧
    handleMembers.find? (fun m => m.name == "m_GraphicsPipelineLayout")
      = some ⟨"m_GraphicsPipelineLayout", .VkPipelineLayout, some .VK_NULL_HANDLE⟩ ∧
    ¬ (∀ m ∈ handleMembers, m.hasNullInit = true) := by
  decide

/-! ## Per-frame uniform state -/

section Frames

variable {K : Type} [Field K]

theorem UpdateUniformBuffers_aspectRatio (lm : LightMotion K) (s : App K) :
    (UpdateUniformBuffers lm s).m_UniformBufferData.aspectRatio
      = s.m_UniformBufferData.aspectRatio := rfl

theorem UpdateUniformBuffers_fov (lm : LightMotion K) (s : App K) :
    (UpdateUniformBuffers lm s).m_UniformBufferData.fov = s.m_UniformBufferData.fov := rfl

theorem Update_aspectRatio (lm : LightMotion K) (dt : K) (s : App K) :
    (Update lm dt s).m_UniformBufferData.aspectRatio = s.m_UniformBufferData.aspectRatio := rfl

theorem Update_fov (lm : LightMotion K) (dt : K) (s : App K) :
    (Update lm dt s).m_UniformBufferData.fov = s.m_UniformBufferData.fov := rfl

theorem Update_accuTime (lm : LightMotion K) (dt : K) (s : App K) :
    (Update lm dt s).m_AccuTime = s.m_AccuTime + dt := rfl

/-- The light position an update writes is the initial one rotated by the
angle `m_AccuTime * omega`, with the accumulated time as just updated. -/
theorem Update_lightPos (lm : LightMotion K) (dt : K) (s : App K) :
    (Update lm dt s).m_UniformBufferData.lightPos
      = rotateY (lm.cos ((Update lm dt s).m_AccuTime * lm.omega))
          (lm.sin ((Update lm dt s).m_AccuTime * lm.omega)) lm.light0 := rfl

theorem foldl_Update_aspectRatio (lm : LightMotion K) (dts : List K) (s : App K) :
    (dts.foldl (fun s dt => Update lm dt s) s).m_UniformBufferData.aspectRatio
      = s.m_UniformBufferData.aspectRatio := by
  induction dts generalizing s with
  | nil => rfl
  | cons dt dts ih => rw [List.foldl_cons, ih, Update_aspectRatio]

theorem foldl_Update_fov (lm : LightMotion K) (dts : List K) (s : App K) :
    (dts.foldl (fun s dt => Update lm dt s) s).m_UniformBufferData.fov
      = s.m_UniformBufferData.fov := by
  induction dts generalizing s with
  | nil => rfl
  | cons dt dts ih => rw [List.foldl_cons, ih, Update_fov]

theorem foldl_Update_accuTime (lm : LightMotion K) (dts : List K) (s : App K) :
    (dts.foldl (fun s dt => Update lm dt s) s).m_AccuTime = s.m_AccuTime + dts.sum := by
  induction dts generalizing s with
  | nil => simp
  | cons dt dts ih => rw [List.foldl_cons, ih, Update_accuTime, List.sum_cons, add_assoc]

theorem runFrames_accuTime (fdiv : K → K → K) (lm : LightMotion K) (lp : Vec3 K)
    (width height : K) (dts : List K) :
    (runFrames fdiv lm lp width height dts).m_AccuTime = dts.sum := by
  unfold runFrames
  rw [foldl_Update_accuTime]
  show (0 : K) + dts.sum = dts.sum
  rw [zero_add]

/-- In every state reached by `Init` and at least one update, the light
position has the coordinates of the initial one rotated about the vertical
axis by the angle `dts.sum * omega`. -/
theorem runFrames_lightPos (fdiv : K → K → K) (lm : LightMotion K) (lp : Vec3 K)
    (width height : K) (dts : List K) (hne : dts ≠ []) :
    (runFrames fdiv lm lp width height dts).m_UniformBufferData.lightPos
      = ⟨lm.cos (dts.sum * lm.omega) * lm.light0.x + lm.sin (dts.sum * lm.omega) * lm.light0.z,
         lm.light0.y,
         lm.cos (dts.sum * lm.omega) * lm.light0.z
           - lm.sin (dts.sum * lm.omega) * lm.light0.x⟩ := by
  have ht := runFrames_accuTime fdiv lm lp width height dts
  have hp : (runFrames fdiv lm lp width height dts).m_UniformBufferData.lightPos
      = rotateY (lm.cos ((runFrames fdiv lm lp width height dts).m_AccuTime * lm.omega))
          (lm.sin ((runFrames fdiv lm lp width height dts).m_AccuTime * lm.omega))
          lm.light0 := by
    unfold runFrames
    induction dts using List.reverseRecOn with
    | nil => exact absurd rfl hne
    | append_singleton dts dt _ => rw [List.foldl_append]; rfl
  rw [ht] at hp
  rw [hp]
  rfl

theorem runFrames_aspectRatio (fdiv : K → K → K) (lm : LightMotion K) (lp : Vec3 K)
    (width height : K) (dts : List K) :
    (runFrames fdiv lm lp width height dts).m_UniformBufferData.aspectRatio
      = fdiv width height := by
  unfold runFrames
  rw [foldl_Update_aspectRatio]
  rfl

theorem runFrames_fov (fdiv : K → K → K) (lm : LightMotion K) (lp : Vec3 K)
    (width height : K) (dts : List K) :
    (runFrames fdiv lm lp width height dts).m_UniformBufferData.fov = 10 := by
  unfold runFrames
  rw [foldl_Update_fov]
  rfl

end Frames

theorem ratCos_sq_add_ratSin_sq (a : ℚ) : ratCos a ^ 2 + ratSin a ^ 2 = 1 := by
  have h : (1 + a * a) ≠ 0 := by nlinarith [mul_self_nonneg a]
  unfold ratCos ratSin
  field_simp
  ring

/-- The model run on the rational light motion `demoMotion`, light initially at
`(3, 10, 4)`: after two updates of one second each the angle is 2, with cosine
`-3/5` and sine `4/5`, and the light is at `(7/5, 10, -24/5)`. -/
theorem runFrames_demoMotion_lightPos :
    (runFrames f32div demoMotion ⟨0, 0, 0⟩ 800 600 [1, 1]).m_UniformBufferData.lightPos
      = ⟨7 / 5, 10, -24 / 5⟩ := by
  rw [runFrames_lightPos f32div demoMotion ⟨0, 0, 0⟩ 800 600 [1, 1] (by simp)]
  norm_num [demoMotion, ratCos, ratSin]

/-! ## Rounding to `float` -/

/-- The nearest integer is at most one half away. -/
theorem roundEven_sub_le (x : ℚ) : |(roundEven x : ℚ) - x| ≤ 1 / 2 := by
  have h1 := Int.floor_le x
  have h2 := Int.lt_floor_add_one x
  unfold roundEven
  split_ifs with a b c
  · rw [abs_le]; constructor <;> linarith
  · rw [abs_le]; push_cast; constructor <;> linarith
  · rw [abs_le]; constructor <;> linarith
  · rw [abs_le]; push_cast; constructor <;> linarith

/-- The nearest integer is not below an integer that the argument reaches. -/
theorem le_roundEven (n : ℤ) (x : ℚ) (h : (n : ℚ) ≤ x) : n ≤ roundEven x := by
  have h1 : n ≤ ⌊x⌋ := Int.le_floor.mpr h
  unfold roundEven
  split_ifs <;> omega

/-- Rounding to `float` has relative error at most `2 ^ (-24)`. -/
theorem f32round_sub_le (q : ℚ) (hq : 0 < q) : |f32round q - q| ≤ q / 2 ^ 24 := by
  have hu : (0 : ℚ) < 2 ^ (Int.log 2 |q| - 23) := by positivity
  have hr := roundEven_sub_le (q / 2 ^ (Int.log 2 |q| - 23))
  have hlog : (2 : ℚ) ^ (Int.log 2 |q|) ≤ q := by
    rw [abs_of_pos hq]
    exact_mod_cast @Int.zpow_log_le_self ℚ _ _ 2 q (by norm_num) hq
  have hsplit : (2 : ℚ) ^ (Int.log 2 |q| - 23) = 2 ^ (Int.log 2 |q|) / 2 ^ 23 := by
    rw [zpow_sub₀ (by norm_num)]; norm_cast
  have e : f32round q - q
      = ((roundEven (q / 2 ^ (Int.log 2 |q| - 23)) : ℚ) - q / 2 ^ (Int.log 2 |q| - 23))
          * 2 ^ (Int.log 2 |q| - 23) := by
    unfold f32round
    field_simp
  rw [e, abs_mul, abs_of_pos hu]
  calc _ ≤ 1 / 2 * (2 : ℚ) ^ (Int.log 2 |q| - 23) :=
        mul_le_mul_of_nonneg_right hr hu.le
    _ ≤ q / 2 ^ 24 := by
        rw [hsplit]
        have : (2 : ℚ) ^ (Int.log 2 |q|) / 2 ^ 23 ≤ q / 2 ^ 23 :=
          div_le_div_of_nonneg_right hlog (by positivity)
        linarith [this]

/-- Rounding to `float` does not leave the binade: the result is at least the
power of two below the argument. -/
theorem le_f32round (q : ℚ) (hq : 0 < q) : (2 : ℚ) ^ (Int.log 2 |q|) ≤ f32round q := by
  have hu : (0 : ℚ) < 2 ^ (Int.log 2 |q| - 23) := by positivity
  have hlog : (2 : ℚ) ^ (Int.log 2 |q|) ≤ q := by
    rw [abs_of_pos hq]
    exact_mod_cast @Int.zpow_log_le_self ℚ _ _ 2 q (by norm_num) hq
  have hsplit : (2 : ℚ) ^ (Int.log 2 |q|) = 2 ^ 23 * 2 ^ (Int.log 2 |q| - 23) := by
    rw [zpow_sub₀ (by norm_num)]
    field_simp
    ring
  have h23 : ((8388608 : ℤ) : ℚ) = 2 ^ 23 := by norm_num
  have hx : ((8388608 : ℤ) : ℚ) ≤ q / 2 ^ (Int.log 2 |q| - 23) := by
    rw [le_div_iff₀ hu, h23, ← hsplit]
    exact hlog
  have hm2 : ((8388608 : ℤ) : ℚ) ≤ (roundEven (q / 2 ^ (Int.log 2 |q| - 23)) : ℚ) :=
    Int.cast_le.mpr (le_roundEven _ _ hx)
  rw [h23] at hm2
  unfold f32round
  rw [hsplit]
  exact mul_le_mul_of_nonneg_right hm2 hu.le

theorem log_two_800_div_600 : Int.log 2 |(800 : ℚ) / 600| = 0 := by
  rw [abs_of_pos (by norm_num)]
  rw [Int.log_of_one_le_right 2 (by norm_num)]
  have : ⌊(800 : ℚ) / 600⌋₊ = 1 := by
    rw [Nat.floor_eq_iff (by norm_num)]
    norm_num
  rw [this]
  simp

/-- The header's `800.f/600.f`: the `float` nearest to 4/3. -/
theorem f32div_800_600 : f32div 800 600 = 11184811 / 8388608 := by
  unfold f32div f32round
  rw [log_two_800_div_600]
  have hf : ⌊(800 : ℚ) / 600 / 2 ^ ((0 : ℤ) - 23)⌋ = 11184810 := by
    rw [Int.floor_eq_iff]
    norm_num
  have hr : roundEven ((800 : ℚ) / 600 / 2 ^ ((0 : ℤ) - 23)) = 11184811 := by
    unfold roundEven
    rw [hf]
    norm_num
  rw [hr]
  norm_num

/-! ## Uniform block invariants -/

/-- The smallest normal `float` is not above a quotient's binade when it is
not above the quotient. -/
theorem normal_le_binade (q : ℚ) (hlo : 1 / 2 ^ 126 ≤ q) :
    1 / 2 ^ 126 ≤ (2 : ℚ) ^ (Int.log 2 |q|) := by
  have hq : 0 < q := lt_of_lt_of_le (by positivity) hlo
  have e1 : ((2 : ℕ) : ℚ) ^ (-126 : ℤ) = 1 / 2 ^ 126 := by
    rw [zpow_neg, one_div]; norm_cast
  have e2 : (2 : ℚ) ^ (-126 : ℤ) = 1 / 2 ^ 126 := by
    rw [zpow_neg, one_div]; norm_cast
  rw [abs_of_pos hq]
  have h1 : ((2 : ℕ) : ℚ) ^ (-126 : ℤ) ≤ q := by rw [e1]; exact hlo
  have h2 := (Int.zpow_le_iff_le_log (by norm_num : 1 < 2) hq).mp h1
  have h3 : (2 : ℚ) ^ (-126 : ℤ) ≤ 2 ^ (Int.log 2 q) := zpow_le_zpow_right₀ (by norm_num) h2
  rw [e2] at h3
  exact h3

/-- C6 as stated fails: after `Init(800, 600)` and an update the `float`
`aspectRatio` is not the rational `800 / 600`, and the default member
initialiser `800.f/600.f` is not `4 / 3`. -/
theorem aspectRatio_800_600_ne_exact_quotient :
    (runFrames f32div demoMotion ⟨0, 0, 0⟩ 800 600 [1 / 60]).m_UniformBufferData.aspectRatio
      ≠ 800 / 600 ∧
    (App.constructed f32div (⟨0, 0, 0⟩ : Vec3 ℚ)).m_UniformBufferData.aspectRatio ≠ 4 / 3 := by
  have h : (App.constructed f32div (⟨0, 0, 0⟩ : Vec3 ℚ)).m_UniformBufferData.aspectRatio
      = f32div 800 600 := rfl
  rw [runFrames_aspectRatio, h, f32div_800_600]
  constructor <;> norm_num

/-- C6, amended: for every viewport `(width, height)` whose quotient lies in
the normal range of `float`, from `2 ^ (-126)` to below `2 ^ 127`, and every
sequence `dts` of `Update` calls after `Init(width, height)`, the `aspectRatio`
in `m_UniformBufferData` is the `float` nearest to `width / height`: it differs
from `width / height` by at most `width / height / 2 ^ 24` and is itself a
normal finite `float` magnitude. For the viewport 800 x 600, and in the
default-constructed block, the value is `11184811 / 8388608`, the `float`
nearest to `4 / 3`, which is `1 / 25165824` above `4 / 3`. -/
theorem aspectRatio_eq_rounded_quotient (lm : LightMotion ℚ) (lp : Vec3 ℚ)
    (width height : ℚ) (dts : List ℚ)
    (hlo : 1 / 2 ^ 126 ≤ width / height) (hhi : width / height < 2 ^ 127) :
    (runFrames f32div lm lp width height dts).m_UniformBufferData.aspectRatio
      = f32round (width / height) ∧
    |(runFrames f32div lm lp width height dts).m_UniformBufferData.aspectRatio
        - width / height| ≤ width / height / 2 ^ 24 ∧
    1 / 2 ^ 126 ≤ (runFrames f32div lm lp width height dts).m_UniformBufferData.aspectRatio ∧
    (runFrames f32div lm lp width height dts).m_UniformBufferData.aspectRatio
      ≤ 2 ^ 128 - 2 ^ 104 ∧
    (runFrames f32div lm lp 800 600 dts).m_UniformBufferData.aspectRatio
      = 11184811 / 8388608 ∧
    (App.constructed f32div lp).m_UniformBufferData.aspectRatio = 11184811 / 8388608 ∧
    (11184811 / 8388608 : ℚ) - 4 / 3 = 1 / 25165824 := by
  have hq : 0 < width / height := lt_of_lt_of_le (by positivity) hlo
  have ha : (runFrames f32div lm lp width height dts).m_UniformBufferData.aspectRatio
      = f32round (width / height) := runFrames_aspectRatio f32div lm lp width height dts
  have hb := f32round_sub_le (width / height) hq
  have hc : (App.constructed f32div lp).m_UniformBufferData.aspectRatio = f32div 800 600 := rfl
  rw [ha, runFrames_aspectRatio, hc, f32div_800_600]
  refine ⟨rfl, hb, ?_, ?_, rfl, rfl, by norm_num⟩
  · exact le_trans (normal_le_binade _ hlo) (le_f32round _ hq)
  · have h1 := (abs_le.mp hb).2
    have h2 : width / height / 2 ^ 24 < 2 ^ 127 / 2 ^ 24 :=
      div_lt_div_of_pos_right hhi (by positivity)
    have h3 : (0 : ℚ) ≤ 2 ^ 127 - 2 ^ 104 - 2 ^ 127 / 2 ^ 24 := by norm_num
    linarith

/-- Witness of C6, amended: the viewport 1920 x 1080 and two updates. -/
theorem aspectRatio_eq_rounded_quotient_witness :
    (runFrames f32div demoMotion ⟨0, 0, 0⟩ 1920 1080 [1 / 60, 1 / 30]).m_UniformBufferData.aspectRatio
      = f32round (1920 / 1080) ∧
    |(runFrames f32div demoMotion ⟨0, 0, 0⟩ 1920 1080
          [1 / 60, 1 / 30]).m_UniformBufferData.aspectRatio
        - 1920 / 1080| ≤ 1920 / 1080 / 2 ^ 24 ∧
    1 / 2 ^ 126 ≤ (runFrames f32div demoMotion ⟨0, 0, 0⟩ 1920 1080
        [1 / 60, 1 / 30]).m_UniformBufferData.aspectRatio ∧
    (runFrames f32div demoMotion ⟨0, 0, 0⟩ 1920 1080
        [1 / 60, 1 / 30]).m_UniformBufferData.aspectRatio ≤ 2 ^ 128 - 2 ^ 104 ∧
    (runFrames f32div demoMotion ⟨0, 0, 0⟩ 800 600
        [1 / 60, 1 / 30]).m_UniformBufferData.aspectRatio = 11184811 / 8388608 ∧
    (App.constructed f32div (⟨0, 0, 0⟩ : Vec3 ℚ)).m_UniformBufferData.aspectRatio
      = 11184811 / 8388608 ∧
    (11184811 / 8388608 : ℚ) - 4 / 3 = 1 / 25165824 :=
  aspectRatio_eq_rounded_quotient demoMotion ⟨0, 0, 0⟩ 1920 1080 [1 / 60, 1 / 30]
    (by norm_num) (by norm_num)

/-- C7: the default-constructed `UBOCompute` has `fov = 10`, which lies
strictly between 0 and 180, and after `Init` and any sequence `dts` of `Update`
calls the `fov` in `m_UniformBufferData` is still 10, hence still strictly
between 0 and 180. -/
theorem fov_stays_in_open_interval {K : Type} [LinearOrderedField K]
    (fdiv : K → K → K) (lm : LightMotion K) (lp : Vec3 K) (width height : K)
    (dts : List K) :
    (UBOCompute.init fdiv lp).fov = 10 ∧
    0 < (UBOCompute.init fdiv lp).fov ∧ (UBOCompute.init fdiv lp).fov < 180 ∧
    (runFrames fdiv lm lp width height dts).m_UniformBufferData.fov = 10 ∧
    0 < (runFrames fdiv lm lp width height dts).m_UniformBufferData.fov ∧
    (runFrames fdiv lm lp width height dts).m_UniformBufferData.fov < 180 := by
  have h0 : (UBOCompute.init fdiv lp).fov = 10 := rfl
  have h1 := runFrames_fov fdiv lm lp width height dts
  rw [h0, h1]
  norm_num

/-- The workgroup count along one axis is the least number of 16-wide groups
that cover `n` pixels. -/
theorem ceil_div_16_bounds (n : Nat) :
    n ≤ 16 * ⌈(n : ℚ) / 16⌉₊ ∧ 16 * ⌈(n : ℚ) / 16⌉₊ < n + 16 := by
  constructor
  · have h := Nat.le_ceil ((n : ℚ) / 16)
    have h2 : (n : ℚ) ≤ 16 * (⌈(n : ℚ) / 16⌉₊ : ℚ) := by linarith
    exact_mod_cast h2
  · have hn : (0 : ℚ) ≤ (n : ℚ) / 16 := by positivity
    have h := Nat.ceil_lt_add_one hn
    have h2 : 16 * (⌈(n : ℚ) / 16⌉₊ : ℚ) < (n : ℚ) + 16 := by linarith
    exact_mod_cast h2

/-- C8: for an image extent `width > 0`, `height > 0` the dispatch recorded by
`BuildComputeCommandBuffers` has workgroup count
`(ceil(width/16), ceil(height/16), 1)`. With 16 x 16 threads per workgroup the
threads reach at least `width` columns and `height` rows, with fewer than 16
surplus threads per axis, and every pixel `(x, y)` with `x < width` and
`y < height` is the pixel of exactly one thread of the dispatch: local index
`(x % 16, y % 16)` in workgroup `(x / 16, y / 16)`. -/
theorem dispatch_covers_every_pixel (width height : Nat)
    (hw : 0 < width) (hh : 0 < height) :
    BuildComputeCommandBuffers width height
      = (⌈(width : ℚ) / 16⌉₊, ⌈(height : ℚ) / 16⌉₊, 1) ∧
    0 < (BuildComputeCommandBuffers width height).1 ∧
    0 < (BuildComputeCommandBuffers width height).2.1 ∧
    width ≤ workgroupSize * (BuildComputeCommandBuffers width height).1 ∧
    workgroupSize * (BuildComputeCommandBuffers width height).1 < width + 16 ∧
    height ≤ workgroupSize * (BuildComputeCommandBuffers width height).2.1 ∧
    workgroupSize * (BuildComputeCommandBuffers width height).2.1 < height + 16 ∧
    (∀ x y : Nat, x < width → y < height →
      x / 16 < (BuildComputeCommandBuffers width height).1 ∧
      y / 16 < (BuildComputeCommandBuffers width height).2.1 ∧
      x % 16 < workgroupSize ∧ y % 16 < workgroupSize ∧
      threadPixel (x / 16) (y / 16) (x % 16) (y % 16) = (x, y) ∧
      (∀ gx gy lx ly : Nat, lx < workgroupSize → ly < workgroupSize →
        threadPixel gx gy lx ly = (x, y) →
        gx = x / 16 ∧ gy = y / 16 ∧ lx = x % 16 ∧ ly = y % 16)) := by
  obtain ⟨w1, w2⟩ := ceil_div_16_bounds width
  obtain ⟨h1, h2⟩ := ceil_div_16_bounds height
  have e1 : (BuildComputeCommandBuffers width height).1 = ⌈(width : ℚ) / 16⌉₊ := rfl
  have e2 : (BuildComputeCommandBuffers width height).2.1 = ⌈(height : ℚ) / 16⌉₊ := rfl
  simp only [e1, e2, workgroupSize, threadPixel, Prod.mk.injEq]
  refine ⟨rfl, ?_, ?_, w1, w2, h1, h2, ?_⟩
  · omega
  · omega
  · intro x y hx hy
    refine ⟨?_, ?_, ?_, ?_, ⟨?_, ?_⟩, ?_⟩
    · omega
    · omega
    · omega
    · omega
    · omega
    · omega
    · intro gx gy lx ly hlx hly hxy
      omega

/-- Witness of C8: the 800 x 600 image. -/
theorem dispatch_covers_every_pixel_witness :
    BuildComputeCommandBuffers 800 600
      = (⌈((800 : Nat) : ℚ) / 16⌉₊, ⌈((600 : Nat) : ℚ) / 16⌉₊, 1) ∧
    0 < (BuildComputeCommandBuffers 800 600).1 ∧
    0 < (BuildComputeCommandBuffers 800 600).2.1 ∧
    800 ≤ workgroupSize * (BuildComputeCommandBuffers 800 600).1 ∧
    workgroupSize * (BuildComputeCommandBuffers 800 600).1 < 800 + 16 ∧
    600 ≤ workgroupSize * (BuildComputeCommandBuffers 800 600).2.1 ∧
    workgroupSize * (BuildComputeCommandBuffers 800 600).2.1 < 600 + 16 ∧
    (∀ x y : Nat, x < 800 → y < 600 →
      x / 16 < (BuildComputeCommandBuffers 800 600).1 ∧
      y / 16 < (BuildComputeCommandBuffers 800 600).2.1 ∧
      x % 16 < workgroupSize ∧ y % 16 < workgroupSize ∧
      threadPixel (x / 16) (y / 16) (x % 16) (y % 16) = (x, y) ∧
      (∀ gx gy lx ly : Nat, lx < workgroupSize → ly < workgroupSize →
        threadPixel gx gy lx ly = (x, y) →
        gx = x / 16 ∧ gy = y / 16 ∧ lx = x % 16 ∧ ly = y % 16)) :=
  dispatch_covers_every_pixel 800 600 (by decide) (by decide)

/-- The dispatch for the 800 x 600 image: 50 x 38 x 1 workgroups. -/
theorem BuildComputeCommandBuffers_800_600 :
    BuildComputeCommandBuffers 800 600 = (50, 38, 1) := by
  have a := ceil_div_16_bounds 800
  have b := ceil_div_16_bounds 600
  simp only [BuildComputeCommandBuffers, Prod.mk.injEq, and_true]
  constructor <;> omega

end VulkanApp
